import Mathlib

/-!
Verification of the PythonCyc marshalling and lazy-proxy subsystem.

This file is a shallow embedding, in Lean 4, of the core of the PythonCyc
repository (a Python 2 client for the Pathway Tools knowledge base):

* the value encoder convertArgToLisp and the call builder prepareFnCall
  (src/pythoncyc/PGDB.py, lines 47-97);
* the Symbol class and PFrame lazy attribute access
  (src/pythoncyc/PToolsFrame.py);
* the PGDB session object: dynamic attribute resolution, the PFrame cache,
  attribute assignment (src/pythoncyc/PGDB.py);
* the response framing of the socket transport
  (src/pythoncyc/PTools.py, recvAll and recvFixedLength).

Host-language (Python 2) semantics that matter here and are embedded
explicitly:

* bool is a subclass of int, so isinstance(True, int) is true and
  str(True) is the string True;
* 1 == True and 0 == False hold, while None == False does not;
* a function that falls off its end returns None;
* joining a list that contains None with str.join raises TypeError;
* evaluating an undefined name raises NameError.

Network interaction is modelled by an oracle mapping the exact query string
sent to the (already JSON-decoded) response value, and by a trace of the
queries sent, so that round trips are countable.  Wall-clock based code
(recvTimeOut) is outside the embedding and is marked as such.
-/

mutual
/-- PyVal models the Python values that can reach the encoder
convertArgToLisp.  VStr models str and unicode (basestring); VInt models
int and long (float and complex are numeric as well but no claim exercises
them and binary floating point formatting is outside this embedding);
VBool models bool, which in Python 2 is a subclass of int; VNone models
None; VSymbol models an instance of class Symbol (PToolsFrame.py line 40);
VFrame models a PFrame, carrying its frameid string; VList models list
(through the mutual type PyValList, so that the encoder recursion is
structural); VDict models dict (entries in iteration order); VObj models
any other host object, carrying only an informal tag. -/
inductive PyVal where
  | VStr (s : String)
  | VInt (n : Int)
  | VBool (b : Bool)
  | VNone
  | VSymbol (name : String)
  | VFrame (frameid : String)
  | VList (es : PyValList)
  | VDict (entries : List (String × PyVal))
  | VObj (tag : String)

/-- PyValList is a list of PyVal, mutual with PyVal so that the encoder
can recurse structurally through list elements. -/
inductive PyValList where
  | nil
  | cons (hd : PyVal) (tl : PyValList)
end

/-- listToPyValList converts an ordinary Lean list of values into the
mutual list type used under the VList constructor. -/
def listToPyValList : List PyVal → PyValList
  | [] => .nil
  | x :: xs => .cons x (listToPyValList xs)

/-- pyList builds the Python list value holding the given elements. -/
def pyList (es : List PyVal) : PyVal :=
  .VList (listToPyValList es)

/-- EncOut is the outcome of one call to convertArgToLisp: a returned
string, the implicit Python None returned when every branch falls through,
or an exception raised while encoding (the TypeError raised by str.join on
a None element inside the list branch). -/
inductive EncOut where
  | str (s : String)
  | noneVal
  | exn
deriving DecidableEq

/-- PyExn models the Python exceptions that the embedded code can raise. -/
inductive PyExn where
  | typeError
  | nameError
  | valueError
  | pythonCycError
  | ptoolsError
deriving DecidableEq

/-- strStartsWith s pre models the Python str.startswith test.  It is
defined over the character lists so that it evaluates by kernel reduction. -/
def strStartsWith (s pre : String) : Bool :=
  pre.data.isPrefixOf s.data

/-- strEndsWith s suf models the Python str.endswith test. -/
def strEndsWith (s suf : String) : Bool :=
  suf.data.isSuffixOf s.data

/-- joinSep sep parts models the Python expression sep.join(parts). -/
def joinSep (sep : String) : List String → String
  | [] => ""
  | x :: xs => xs.foldl (fun acc y => acc ++ sep ++ y) x

/-- convertChar is the per-character action of convertLispIdtoPythonId
(PToolsFrame.py line 34): dashes and dots become underscores, a question
mark becomes the two characters _p, vertical bars are dropped, and every
remaining character is lower-cased.  The source applies four str.replace
calls and then str.lower; since each pattern is a single character the two
formulations agree. -/
def convertChar (c : Char) : List Char :=
  if c = '-' then ['_']
  else if c = '.' then ['_']
  else if c = '?' then ['_', 'p']
  else if c = '|' then []
  else [c.toLower]

/-- convertLispIdtoPythonId (PToolsFrame.py line 34) normalizes a Pathway
Tools identifier into a Python-safe attribute name. -/
def convertLispIdtoPythonId (s : String) : String :=
  String.mk (s.data.map convertChar).flatten

mutual
/-- convertArgToLisp (PGDB.py lines 47-82) encodes one Python value for
the Pathway Tools Lisp server.  The branches appear in the source order:

1. isinstance(arg, basestring): return a quote prefix (unless inquote or
   the string starts with a colon) followed by the string itself;
2. isinstance(arg, (int, long, float, complex)): return str(arg).  In
   Python 2 bool is a subclass of int, so VBool is consumed HERE, and
   str(True) / str(False) are the strings True / False;
3. arg == True: return t.  Unreachable: every value equal to True
   (True, 1, 1.0) is numeric and was consumed by branch 2;
4. arg == None or arg == False: return nil.  Only reachable for None,
   since every value equal to False is numeric;
5. isinstance(arg, PFrame): return arg.frameid, with no quote prefix;
6. isinstance(arg, list): return the space-joined encodings of the
   elements (each encoded with inquote true) in parentheses, with a quote
   prefix unless inquote;
7. otherwise the source falls off the end of the function and returns
   None (EncOut.noneVal).  This is where Symbol instances, dicts, tuples
   and arbitrary objects land. -/
def convertArgToLisp : PyVal → Bool → EncOut
  | .VStr s, inquote =>
      .str ((if inquote || strStartsWith s ":" then "" else "\x27") ++ s)
  | .VInt n, _ => .str (toString n)
  | .VBool b, _ => .str (if b then "True" else "False")
  | .VNone, _ => .str "nil"
  | .VFrame fid, _ => .str fid
  | .VList es, inquote =>
      match convertElems es with
      | some ss => .str ((if inquote then "" else "\x27") ++ "(" ++ joinSep " " ss ++ ")")
      | none => .exn
  | .VSymbol _, _ => .noneVal
  | .VDict _, _ => .noneVal
  | .VObj _, _ => .noneVal

/-- convertElems encodes the elements of a Python list for the list branch
of convertArgToLisp, each with inquote set to true.  A none result models
the TypeError that str.join raises as soon as some element encodes to a
non-string (either the fall-through None or a nested failure). -/
def convertElems : PyValList → Option (List String)
  | .nil => some []
  | .cons e rest =>
      match convertArgToLisp e true with
      | .str s =>
          match convertElems rest with
          | some ss => some (s :: ss)
          | none => none
      | _ => none
end

/-- encIsStr is true when an encoding outcome is an actual string; the
Python expression str.join raises TypeError on any non-string item. -/
def encIsStr : EncOut → Bool
  | .str _ => true
  | _ => false

/-- encForce extracts the string of an encoding outcome (unused default on
the non-string cases, which are guarded away by encIsStr at use sites). -/
def encForce : EncOut → String
  | .str s => s
  | _ => ""

/-- encPyStr models applying the Python str() conversion to an encoder
result, as done for keyword values in prepareFnCall line 95: a string maps
to itself, a returned None maps to the four-character string None, and an
exception propagates. -/
def encPyStr : EncOut → Option String
  | .str s => some s
  | .noneVal => some "None"
  | .exn => none

/-- pyEqNoneV v models the Python comparison v == None (resp. v != None
negated).  Only None itself is equal to None; in particular False == None
and [] == None are both false, and PFrame.__eq__ applied to None returns
False. -/
def pyEqNoneV : PyVal → Bool
  | .VNone => true
  | _ => false

/-- prepareFnCall (PGDB.py lines 84-97) builds the Lisp call string
  ( fn args2 keywords )
where args2 is the space-join of the encoded positional arguments and
keywords is the space-join of :key value items for every keyword argument
whose value is not None (the source filter is kwargs[key] != None).
Keyword values go through str(), so an unsupported value becomes the
string None; a positional argument that encodes to None makes str.join
raise TypeError, modelled as the result none.  Note that the result always
contains BOTH separating spaces of the format string, even when args2 or
keywords is empty.  kwargs is a list of pairs standing for the dict in
iteration order. -/
def prepareFnCall (fn : String) (args : List PyVal)
    (kwargs : List (String × PyVal)) : Option String :=
  let encArgs := args.map (fun a => convertArgToLisp a false)
  if encArgs.any (fun e => !(encIsStr e)) then none
  else
    let args2 := joinSep " " (encArgs.map encForce)
    let kept := kwargs.filter (fun kv => !(pyEqNoneV kv.2))
    let encKw := kept.map (fun kv => (kv.1, encPyStr (convertArgToLisp kv.2 false)))
    if encKw.any (fun kv => kv.2.isNone) then none
    else
      let keywords := joinSep " "
        (encKw.map (fun kv => ":" ++ kv.1 ++ " " ++ kv.2.getD ""))
      some ("(" ++ fn ++ " " ++ args2 ++ " " ++ keywords ++ ")")

/-- alistLookup models a Python dict lookup over an association list
(keys unique, value of the most recent assignment found first). -/
def alistLookup {α : Type} (l : List (String × α)) (k : String) : Option α :=
  match l.find? (fun p => p.1 == k) with
  | some p => some p.2
  | none => none

/-- alistUpdate models a Python dict assignment d[k] = v.  Iteration order
of the source dicts is never relied upon by the modelled flows, so the new
binding is simply placed in front and any old binding for the key is
dropped. -/
def alistUpdate {α : Type} (l : List (String × α)) (k : String) (v : α) :
    List (String × α) :=
  (k, v) :: l.filter (fun p => !(p.1 == k))

/-- pyTruthy models Python truth testing (if v:) for the decoded JSON
values that can appear as server responses. -/
def pyTruthy : PyVal → Bool
  | .VNone => false
  | .VBool b => b
  | .VInt n => !(n == 0)
  | .VStr s => !s.data.isEmpty
  | .VList es => match es with | .nil => false | _ => true
  | .VDict es => !es.isEmpty
  | .VSymbol _ => true
  | .VFrame _ => true
  | .VObj _ => true

/-- pyEqFalseV v models the Python comparison v == False: true for False
itself and for the number 0 (False == 0 holds in Python). -/
def pyEqFalseV : PyVal → Bool
  | .VBool b => !b
  | .VInt n => n == 0
  | _ => false

/-- pyIsEmptyListV v models the Python comparison v == [] for decoded
response values. -/
def pyIsEmptyListV : PyVal → Bool
  | .VList .nil => true
  | _ => false

/-- boolWrap models the result post-processing of sendPgdbFnCallBool
(PGDB.py lines 384-392): a None or empty-list result becomes False, any
other result is passed through unchanged. -/
def boolWrap (r : PyVal) : PyVal :=
  if pyEqNoneV r || pyIsEmptyListV r then .VBool false else r

/-- listWrap models the result post-processing of sendPgdbFnCallList
(PGDB.py lines 394-402): a None or False result becomes the empty list,
any other result is passed through unchanged. -/
def listWrap (r : PyVal) : PyVal :=
  if pyEqNoneV r || pyEqFalseV r then .VList .nil else r

/-- FrameLit carries the two strings that PFrame.__eq__ compares: the
frameid of the PFrame and the orgid identifying its owning PGDB. -/
structure FrameLit where
  frameid : String
  orgid : String

/-- EqOperand is the right-hand operand of PFrame.__eq__: a string, a
PFrame, or a value of any other type. -/
inductive EqOperand where
  | strArg (s : String)
  | frameArg (f : FrameLit)
  | otherArg

/-- pgdbEq models PGDB.__eq__ (PGDB.py lines 337-342).  The body reads

    def __eq__(self, other):
        if isinstance(o, PGDB):
            return self._orgid == o._orgid
        else:
            return False

The parameter is named other but the body tests the name o, which is not
defined anywhere in the module, so evaluating the isinstance call raises
NameError before any comparison happens, whatever the operands are.  The
intended orgid comparison (visible in the dead body) is never executed. -/
def pgdbEq (_selfOrgid _otherOrgid : String) : Except PyExn Bool :=
  .error .nameError

/-- pframeEq models PFrame.__eq__ (PToolsFrame.py lines 249-258):
a string operand is compared against the frameid; a PFrame operand is
compared with (self.pgdb == frame.pgdb) and (self.frameid == frame.frameid),
where the first conjunct calls PGDB.__eq__ and therefore raises NameError
(see pgdbEq); any other operand compares unequal. -/
def pframeEq (self : FrameLit) : EqOperand → Except PyExn Bool
  | .strArg s => .ok (self.frameid == s)
  | .frameArg q =>
      match pgdbEq self.orgid q.orgid with
      | .error e => .error e
      | .ok b => .ok (b && (self.frameid == q.frameid))
  | .otherArg => .ok false

/-- DictVal is a value stored in the __dict__ of a PGDB object: either a
PFrame, represented by its address in the session heap, or any other
Python value. -/
inductive DictVal where
  | frameD (addr : Nat)
  | pyD (v : PyVal)

/-- FrameState is the local state of one PFrame object: its frameid
(always stored wrapped in vertical bars), the _isclass and _gotframe
flags, the instances attribute (present exactly when the frame was
created as a class; it holds heap addresses of the instance PFrames), and
the slot entries of its __dict__ (keys already normalized by
convertLispIdtoPythonId). -/
structure FrameState where
  frameid : String
  isclass : Bool
  gotframe : Bool
  instances : Option (List Nat)
  slots : List (String × PyVal)

/-- PgdbState is the local state of one PGDB session object together with
the heap of PFrame objects created for it and the trace of queries sent to
the server.  dict models PGDB.__dict__ (pre-populated by __init__ with
_orgid, _error and _frames); frames models the _frames cache mapping
normalized identifiers to heap addresses; heap gives object identity to
PFrames: two cache entries are the same Python object exactly when they
hold the same address.  Every entry appended to trace is one network round
trip. -/
structure PgdbState where
  orgid : String
  dict : List (String × DictVal)
  frames : List (String × Nat)
  heap : List FrameState
  trace : List String

/-- Oracle maps the exact query string sent to the server to the decoded
JSON value of its response, abstracting the socket and the JSON layer of
sendQueryToPTools. -/
def Oracle : Type := String → PyVal

/-- withOrganism models sendPgdbQuery (PGDB.py line 382), which wraps the
call in the with-organism scoping macro for the orgid of the session. -/
def withOrganism (orgid call : String) : String :=
  "(with-organism (:org-id \x27" ++ orgid ++ ") " ++ call ++ ")"

/-- sendPgdbFnCall models PGDB.sendPgdbFnCall (PGDB.py lines 404-411):
prepareFnCall builds the call string (if that raises, the exception
propagates before anything is sent), sendPgdbQuery wraps it in
with-organism and performs one round trip (recorded on the trace), and the
decoded response is returned.  The error-sentinel check of
sendQueryToPTools is not exercised by the modelled flows: the oracle
yields the already-decoded benign response. -/
def sendPgdbFnCall (oracle : Oracle) (st : PgdbState) (fn : String)
    (args : List PyVal) : Except PyExn (PyVal × PgdbState) :=
  match prepareFnCall fn args [] with
  | none => .error .typeError
  | some call =>
      let q := withOrganism st.orgid call
      .ok (oracle q, { st with trace := st.trace ++ [q] })

/-- sendPgdbFnCallBoolM models sendPgdbFnCallBool: sendPgdbFnCall followed
by the boolWrap post-processing. -/
def sendPgdbFnCallBoolM (oracle : Oracle) (st : PgdbState) (fn : String)
    (args : List PyVal) : Except PyExn (PyVal × PgdbState) :=
  match sendPgdbFnCall oracle st fn args with
  | .error e => .error e
  | .ok (r, st1) => .ok (boolWrap r, st1)

/-- sendPgdbFnCallListM models sendPgdbFnCallList: sendPgdbFnCall followed
by the listWrap post-processing. -/
def sendPgdbFnCallListM (oracle : Oracle) (st : PgdbState) (fn : String)
    (args : List PyVal) : Except PyExn (PyVal × PgdbState) :=
  match sendPgdbFnCall oracle st fn args with
  | .error e => .error e
  | .ok (r, st1) => .ok (listWrap r, st1)

/-- extractStrs collects the strings of a decoded response list; a
non-string element yields none (a non-string frame id would make the
PFrame constructor fail on str.startswith). -/
def extractStrs : PyValList → Option (List String)
  | .nil => some []
  | .cons (.VStr s) rest =>
      match extractStrs rest with
      | some l => some (s :: l)
      | none => none
  | .cons _ _ => none

/-- createPFrame models PFrame.__init__ (PToolsFrame.py lines 78-100) up
to but not including the optional get_frame_data call: the frameid is
wrapped in vertical bars unless already wrapped, the _isclass and
_gotframe flags are set (and an empty instances list is created for a
class frame), and the new object is registered in the _frames cache of the
owning PGDB under the normalization of the frameid ARGUMENT (the source
uses the parameter, not the wrapped self.frameid).  The new object lives
at the next heap address; the returned triple is (address, wrapped
frameid, updated session). -/
def createPFrame (st : PgdbState) (frameid : String) (isClass : Bool) :
    Nat × String × PgdbState :=
  let fid := if strStartsWith frameid "|" && strEndsWith frameid "|" then frameid
             else "|" ++ frameid ++ "|"
  let fr : FrameState :=
    { frameid := fid, isclass := isClass, gotframe := false,
      instances := if isClass then some [] else none, slots := [] }
  let addr := st.heap.length
  (addr, fid,
   { st with heap := st.heap ++ [fr],
             frames := alistUpdate st.frames (convertLispIdtoPythonId frameid) addr })

/-- getFrameDataM models PFrame.get_frame_data (PToolsFrame.py lines
187-206) for the frame at the given heap address: one round trip with
get-frame-object on the frameid; a falsy response raises PythonCycError;
otherwise _gotframe is set and every returned slot is stored in the frame
under its normalized name.  A truthy non-mapping response would fail the
slot iteration, modelled as TypeError. -/
def getFrameDataM (oracle : Oracle) (st : PgdbState) (addr : Nat) :
    Except PyExn PgdbState :=
  match st.heap.get? addr with
  | none => .error .typeError
  | some fr =>
    match sendPgdbFnCall oracle st "get-frame-object" [.VStr fr.frameid] with
    | .error e => .error e
    | .ok (resp, st1) =>
      if !pyTruthy resp then .error .pythonCycError
      else
        match resp with
        | .VDict entries =>
            let fr1 :=
              { fr with
                gotframe := true,
                slots := entries.foldl
                  (fun sl kv => alistUpdate sl (convertLispIdtoPythonId kv.1) kv.2)
                  fr.slots }
            .ok { st1 with heap := st1.heap.set addr fr1 }
        | _ => .error .typeError

/-- createInstancePFrames folds PFrame creation over a list of frame ids,
modelling the comprehension [PFrame(frameid, self) for frameid in frameids]
of get_class_data; it returns the created heap addresses in order. -/
def createInstancePFrames (st : PgdbState) : List String → List Nat × PgdbState
  | [] => ([], st)
  | fid :: rest =>
      let (a, _, st1) := createPFrame st fid false
      let (as2, st2) := createInstancePFrames st1 rest
      (a :: as2, st2)

/-- getClassDataM models PGDB.get_class_data (PGDB.py lines 430-460) with
the default getInstancesData = False: create a class PFrame with an
immediate full fetch (two round trips: get-frame-object inside the
constructor, then get-class), create an identifier-only PFrame for every
returned instance id, store their addresses in the instances attribute of
the class frame, and return the class frame address. -/
def getClassDataM (oracle : Oracle) (st : PgdbState) (realClassName : String) :
    Except PyExn (Nat × PgdbState) :=
  let (addr, fid, st1) := createPFrame st realClassName true
  match getFrameDataM oracle st1 addr with
  | .error e => .error e
  | .ok st2 =>
    match sendPgdbFnCallListM oracle st2 "get-class" [.VFrame fid] with
    | .error e => .error e
    | .ok (resp, st3) =>
      match resp with
      | .VList items =>
          match extractStrs items with
          | none => .error .typeError
          | some fids =>
              let (instAddrs, st4) := createInstancePFrames st3 fids
              match st4.heap.get? addr with
              | none => .error .typeError
              | some fr =>
                  .ok (addr, { st4 with
                               heap := st4.heap.set addr { fr with instances := some instAddrs } })
      | _ => .error .typeError

/-- PgdbAttrRes is the result of PGDB.__getattr__: a PFrame (by heap
address), a plain __dict__ value, or the final return None. -/
inductive PgdbAttrRes where
  | frameAddr (a : Nat)
  | plainVal (v : PyVal)
  | pyNone

/-- pgdbGetattr models PGDB.__getattr__ (PGDB.py lines 263-297) for a
string attribute name (the isinstance(attr, int) branch cannot fire for
attribute access, which always passes a string):

1. if the normalized name is a key of __dict__, return that value;
2. if it is a key of the _frames cache, return the cached PFrame
   (no network interaction at all on this path);
3. otherwise ask class-name-p (one round trip, through the Bool wrapper);
   a truthy response is the real class name and get_class_data builds,
   caches and returns the class PFrame (two more round trips);
4. otherwise ask frameid-instance-p (one round trip); a truthy response is
   the real instance id and a PFrame is built with an immediate full fetch
   (one more round trip), cached and returned;
5. otherwise return None. -/
def pgdbGetattr (oracle : Oracle) (st : PgdbState) (attr : String) :
    Except PyExn (PgdbAttrRes × PgdbState) :=
  let attrId := convertLispIdtoPythonId attr
  match alistLookup st.dict attrId with
  | some (.frameD a) => .ok (.frameAddr a, st)
  | some (.pyD v) => .ok (.plainVal v, st)
  | none =>
    match alistLookup st.frames attrId with
    | some a => .ok (.frameAddr a, st)
    | none =>
      match sendPgdbFnCallBoolM oracle st "class-name-p" [.VStr attr] with
      | .error e => .error e
      | .ok (r1, st1) =>
        if pyTruthy r1 then
          match r1 with
          | .VStr realClassName =>
              match getClassDataM oracle st1 realClassName with
              | .error e => .error e
              | .ok (a, st2) => .ok (.frameAddr a, st2)
          | _ => .error .typeError
        else
          match sendPgdbFnCallBoolM oracle st1 "frameid-instance-p" [.VStr attr] with
          | .error e => .error e
          | .ok (r2, st2) =>
            if pyTruthy r2 then
              match r2 with
              | .VStr realInstanceName =>
                  let (a, _, st3) := createPFrame st2 realInstanceName false
                  match getFrameDataM oracle st3 a with
                  | .error e => .error e
                  | .ok st4 => .ok (.frameAddr a, st4)
              | _ => .error .typeError
            else .ok (.pyNone, st2)

/-- pgdbSetattr models PGDB.__setattr__ (PGDB.py lines 252-261).  An
attribute whose name starts with an underscore is stored directly in
__dict__.  For any other name the source computes the normalized name and
then evaluates

    if isinstances(val, PFrame):

where isinstances is an undefined name (the builtin is isinstance), so a
NameError is raised before anything is stored; the error result carries no
state, matching the fact that the assignment leaves the object unchanged. -/
def pgdbSetattr (st : PgdbState) (attr : String) (val : PyVal) :
    Except PyExn PgdbState :=
  if strStartsWith attr "_" then
    .ok { st with dict := alistUpdate st.dict attr (.pyD val) }
  else
    .error .nameError

/-- pgdbSetitem models PGDB.__setitem__ (PGDB.py lines 310-316).  There is
no underscore shortcut here: the body goes straight to the same undefined
isinstances guard as __setattr__, so every item assignment on a PGDB
raises NameError before anything is stored. -/
def pgdbSetitem (_st : PgdbState) (_attr : String) (_val : PyVal) :
    Except PyExn PgdbState :=
  .error .nameError

/-- pgdbInit is the state of a freshly constructed, validated PGDB
session: __init__ (PGDB.py lines 200-223) stores _orgid, _error and the
empty _frames cache (the orgid-exist-p validation round trip happens
before any attribute resolution and is not part of the resolution trace,
which starts empty). -/
def pgdbInit (orgid : String) : PgdbState :=
  { orgid := orgid,
    dict := [("_orgid", .pyD (.VStr orgid)), ("_error", .pyD (.VBool false)),
             ("_frames", .pyD (.VObj "dict"))],
    frames := [], heap := [], trace := [] }

/-- frameDictGet models a lookup in the __dict__ of a PFrame object.  The
entries created by PFrame.__init__ are always present: frameid, _isclass,
_gotframe, pgdb (the owning PGDB object, opaque here) and, for a class
frame, instances (rendered opaquely; no modelled flow reads it through
this lookup).  Slot entries stored by the fetch paths follow. -/
def frameDictGet (fr : FrameState) (k : String) : Option PyVal :=
  if k = "frameid" then some (.VStr fr.frameid)
  else if k = "_isclass" then some (.VBool fr.isclass)
  else if k = "_gotframe" then some (.VBool fr.gotframe)
  else if k = "pgdb" then some (.VObj "PGDB")
  else if k = "instances" then
    match fr.instances with
    | some _ => some (.VObj "instances")
    | none => alistLookup fr.slots k
  else alistLookup fr.slots k

/-- getFrameSlotValueM models PFrame.get_frame_slot_value (PToolsFrame.py
lines 171-184): one call to sendPgdbFnCall with the function name
get-frame-slot-value, the frameid, and Symbol(slot).  Because
convertArgToLisp has no branch for Symbol instances, the Symbol argument
encodes to None and the str.join inside prepareFnCall raises TypeError
BEFORE any query is sent, so the whole some-branch below is unreachable;
it is written out anyway, following the source: the response is
destructured as [slotName, value] (anything else raises), a falsy slotName
raises PythonCycError, and otherwise the value is stored under the
normalized slot name.  The result carries the outcome, the frame state,
and the queries sent during the call. -/
def getFrameSlotValueM (oracle : Oracle) (orgid : String) (fr : FrameState)
    (slot : String) : Except PyExn FrameState × List String :=
  match prepareFnCall "get-frame-slot-value" [.VStr fr.frameid, .VSymbol slot] [] with
  | none => (.error .typeError, [])
  | some call =>
      let q := withOrganism orgid call
      match oracle q with
      | .VList (.cons slotName (.cons value .nil)) =>
          if !pyTruthy slotName then (.error .pythonCycError, [q])
          else
            match slotName with
            | .VStr sn =>
                (.ok { fr with slots := alistUpdate fr.slots (convertLispIdtoPythonId sn) value },
                 [q])
            | _ => (.error .typeError, [q])
      | _ => (.error .valueError, [q])

/-- pframeGetattr models PFrame.__getattr__ (PToolsFrame.py lines
125-147): return the __dict__ entry under the attribute name or its
normalization if present; otherwise, if _gotframe is set, return None
without any network interaction; otherwise call get_frame_slot_value (a
per-slot fetch, which in fact raises TypeError, see getFrameSlotValueM)
and afterwards return the entry under the normalized name, or None if
still absent.  The result carries the outcome (ok none is the Python None
return), the resulting frame state, and the queries sent. -/
def pframeGetattr (oracle : Oracle) (orgid : String) (fr : FrameState)
    (attr : String) : Except PyExn (Option PyVal) × FrameState × List String :=
  match frameDictGet fr attr with
  | some v => (.ok (some v), fr, [])
  | none =>
    let attrId := convertLispIdtoPythonId attr
    match frameDictGet fr attrId with
    | some v => (.ok (some v), fr, [])
    | none =>
      if fr.gotframe then (.ok none, fr, [])
      else
        match getFrameSlotValueM oracle orgid fr attr with
        | (.error e, qs) => (.error e, fr, qs)
        | (.ok fr1, qs) =>
          match frameDictGet fr1 attrId with
          | some v => (.ok (some v), fr1, qs)
          | none => (.ok none, fr1, qs)

/-- nullOracle is a server that answers every query with null; the flows
proved below never reach it. -/
def nullOracle : Oracle := fun _ => .VNone

/-- trpFrame is a freshly constructed, not fully fetched instance PFrame
for the compound TRP, as produced by PFrame("TRP", meta) with the default
getFrameData = False. -/
def trpFrame : FrameState :=
  { frameid := "|TRP|", isclass := false, gotframe := false,
    instances := none, slots := [] }

/-- trpFetchedFrame is the same PFrame after a successful full fetch
(gotframe set, one slot stored). -/
def trpFetchedFrame : FrameState :=
  { trpFrame with gotframe := true, slots := [("common_name", .VStr "L-tryptophan")] }

/-- reactionsOracle answers the three queries that resolving the attribute
Reactions on the session meta sends, in the exact wire form produced by
the embedding: the class-name-p probe yields the real class name, the
get-frame-object fetch yields one slot, and the get-class fetch yields a
single instance frame id. -/
def reactionsOracle : Oracle := fun q =>
  if q = withOrganism "meta" "(class-name-p \x27Reactions )" then
    .VStr "|Reactions|"
  else if q = withOrganism "meta" "(get-frame-object \x27|Reactions| )" then
    .VDict [("COMMON-NAME", .VStr "Reactions")]
  else if q = withOrganism "meta" "(get-class |Reactions| )" then
    pyList [.VStr "|RXN-9000|"]
  else .VNone

/-- reactionsRun1 is the first resolution of the attribute Reactions on a
fresh session for the orgid meta. -/
def reactionsRun1 : Except PyExn (PgdbAttrRes × PgdbState) :=
  pgdbGetattr reactionsOracle (pgdbInit "meta") "Reactions"

/-- reactionsSt1 is the session state after the first resolution. -/
def reactionsSt1 : PgdbState :=
  match reactionsRun1 with
  | .ok (_, st) => st
  | .error _ => pgdbInit "meta"

/-- ByteStream models the receiving side of the socket as the list of data
chunks the peer delivers: a recv call returns bytes from the front chunk
only (possibly fewer than requested, which is how partial reads arise); an
exhausted list means the stream is closed and recv returns the empty
string.  Characters stand for bytes (the protocol payload is ASCII/UTF-8
text). -/
def ByteStream : Type := List (List Char)

/-- recvStream st n models socket.recv(n) under the chunk model: at most n
bytes are taken from the front chunk; leftover bytes of the chunk stay
pending; an empty stream yields the empty result. -/
def recvStream : ByteStream → Nat → List Char × ByteStream
  | [], _ => ([], [])
  | c :: rest, n =>
      if c.length ≤ n then (c, rest) else (c.take n, c.drop n :: rest)

/-- recvFixedLengthAux is the accumulation loop of recvFixedLength
(PTools.py lines 84-103): while fewer than the requested number of bytes
have arrived, recv up to min(remaining, 4096) bytes; an empty read (closed
stream) returns what was accumulated so far.  The fuel is an upper bound
on the number of loop iterations; every productive iteration consumes at
least one byte of the remaining count, so fuel = remaining always
suffices and the fuel-exhausted case coincides with remaining = 0. -/
def recvFixedLengthAux : Nat → ByteStream → Nat → List Char → List Char × ByteStream
  | 0, st, _, acc => (acc, st)
  | fuel + 1, st, remaining, acc =>
      if remaining = 0 then (acc, st)
      else
        let pr := recvStream st (min remaining 4096)
        if pr.1.isEmpty then (acc, pr.2)
        else recvFixedLengthAux fuel pr.2 (remaining - pr.1.length) (acc ++ pr.1)

/-- recvFixedLength models PTools.recvFixedLength: receive exactly
lengthMsg bytes, tolerating partial reads, or fewer if the stream closes
first. -/
def recvFixedLength (st : ByteStream) (lengthMsg : Nat) : List Char × ByteStream :=
  recvFixedLengthAux lengthMsg st lengthMsg []

/-- digitsToNat models int() applied to the ten-character length field: it
accepts a non-empty all-digit string and yields its decimal value, and is
none (a ValueError) otherwise.  The general int() also accepts signs and
surrounding whitespace, which the length field of the protocol never
carries. -/
def digitsToNat (cs : List Char) : Option Nat :=
  if cs.isEmpty then none
  else
    cs.foldl
      (fun acc c =>
        match acc with
        | some n => if c.isDigit then some (n * 10 + (c.toNat - 48)) else none
        | none => none)
      (some 0)

/-- recvAll models PTools.recvAll (PTools.py lines 39-73) restricted to
its deterministic path: read the one-byte type tag; on tag L read the
ten-byte decimal length and then that many payload bytes.  The tag A path
and the fallback path for any other tag use recvTimeOut, whose wall-clock
quiescence logic is outside this embedding; both are rendered as none, as
is a non-numeric length field (a ValueError from int()). -/
def recvAll (st : ByteStream) : Option (List Char × ByteStream) :=
  let tagPr := recvStream st 1
  if tagPr.1 = ['A'] then none
  else if tagPr.1 = ['L'] then
    let lenPr := recvFixedLength tagPr.2 10
    match digitsToNat lenPr.1 with
    | some n => some (recvFixedLength lenPr.2 n)
    | none => none
  else none

/-- JVal is the decoded JSON value returned by the transport. -/
inductive JVal where
  | jnull
  | jbool (b : Bool)
  | jnum (n : Int)
  | jstr (s : String)
  | jarr (items : List JVal)
  | jobj (entries : List (String × JVal))

/-- skipWs drops leading JSON whitespace. -/
def skipWs : List Char → List Char
  | [] => []
  | c :: rest =>
      if c = ' ' || c = '\t' || c = '\n' || c = '\r' then skipWs rest else c :: rest

/-- jsonStrChars reads the characters of a JSON string after its opening
double quote, up to the closing double quote.  Escape sequences are not
supported (no modelled payload uses them). -/
def jsonStrChars : List Char → Option (List Char × List Char)
  | [] => none
  | c :: rest =>
      if c = '"' then some ([], rest)
      else if c = '\\' then none
      else
        match jsonStrChars rest with
        | some (s, r) => some (c :: s, r)
        | none => none

/-- spanDigits splits a character list into its leading digits and the
rest. -/
def spanDigits : List Char → List Char × List Char
  | [] => ([], [])
  | c :: rest =>
      if c.isDigit then
        let pr := spanDigits rest
        (c :: pr.1, pr.2)
      else ([], c :: rest)

/-- digitsVal folds a non-empty digit list into its decimal value. -/
def digitsVal (cs : List Char) : Nat :=
  cs.foldl (fun acc c => acc * 10 + (c.toNat - 48)) 0

/-- JMode selects what jsonP is parsing: one value, the items of an array
after its opening bracket, or the entries of an object after its opening
brace. -/
inductive JMode where
  | value
  | arrItems
  | objItems

/-- JOut is the result of one jsonP call, depending on the mode. -/
inductive JOut where
  | one (v : JVal)
  | many (items : List JVal)
  | pairs (entries : List (String × JVal))

/-- jsonP is a fuel-bounded recursive-descent reader for the JSON subset
the protocol uses (null, booleans, integers, escape-free strings, arrays,
objects).  Modelled from the spec: the Python stdlib json.loads performs
the JSON decoding of the transport (PTools.py line 179); it is an external
collaborator of the repository, embedded here only deeply enough to decode
the response payloads of the modelled exchanges.  Every recursive call
consumes fuel; 2 * n + 2 fuel suffices for an input of n characters. -/
def jsonP : Nat → JMode → List Char → Option (JOut × List Char)
  | 0, _, _ => none
  | fuel + 1, .value, cs =>
      match skipWs cs with
      | 'n' :: 'u' :: 'l' :: 'l' :: r => some (.one .jnull, r)
      | 't' :: 'r' :: 'u' :: 'e' :: r => some (.one (.jbool true), r)
      | 'f' :: 'a' :: 'l' :: 's' :: 'e' :: r => some (.one (.jbool false), r)
      | '"' :: r =>
          match jsonStrChars r with
          | some (s, r2) => some (.one (.jstr (String.mk s)), r2)
          | none => none
      | '[' :: r =>
          (match skipWs r with
           | ']' :: r2 => some (.one (.jarr []), r2)
           | r2 =>
               match jsonP fuel .arrItems r2 with
               | some (.many items, r3) => some (.one (.jarr items), r3)
               | _ => none)
      | '\x7b' :: r =>
          (match skipWs r with
           | '\x7d' :: r2 => some (.one (.jobj []), r2)
           | r2 =>
               match jsonP fuel .objItems r2 with
               | some (.pairs entries, r3) => some (.one (.jobj entries), r3)
               | _ => none)
      | '-' :: r =>
          (match spanDigits r with
           | ([], _) => none
           | (ds, r2) => some (.one (.jnum (-(digitsVal ds : Int))), r2))
      | c :: r =>
          if c.isDigit then
            let pr := spanDigits (c :: r)
            some (.one (.jnum (digitsVal pr.1)), pr.2)
          else none
      | [] => none
  | fuel + 1, .arrItems, cs =>
      (match jsonP fuel .value cs with
       | some (.one v, r) =>
           (match skipWs r with
            | ',' :: r2 =>
                (match jsonP fuel .arrItems r2 with
                 | some (.many items, r3) => some (.many (v :: items), r3)
                 | _ => none)
            | ']' :: r2 => some (.many [v], r2)
            | _ => none)
       | _ => none)
  | fuel + 1, .objItems, cs =>
      (match skipWs cs with
       | '"' :: r =>
           (match jsonStrChars r with
            | some (k, r2) =>
                (match skipWs r2 with
                 | ':' :: r3 =>
                     (match jsonP fuel .value r3 with
                      | some (.one v, r4) =>
                          (match skipWs r4 with
                           | ',' :: r5 =>
                               (match jsonP fuel .objItems r5 with
                                | some (.pairs entries, r6) =>
                                    some (.pairs ((String.mk k, v) :: entries), r6)
                                | _ => none)
                           | '\x7d' :: r5 => some (.pairs [(String.mk k, v)], r5)
                           | _ => none)
                      | _ => none)
                 | _ => none)
            | none => none)
       | _ => none)

/-- jsonLoads models json.loads on the protocol subset: parse one value
and require only whitespace to remain (json.loads raises on trailing
content). -/
def jsonLoads (s : String) : Option JVal :=
  match jsonP (2 * s.length + 2) .value s.data with
  | some (.one v, rest) => if (skipWs rest).isEmpty then some v else none
  | _ => none

/-- decodeResponse models the decoding tail of sendQueryToPTools
(PTools.py lines 179-185): the received text is JSON-decoded (a decoding
failure raises ValueError), and a decoded string starting with the :error
sentinel raises PToolsError; every other decoded value is returned. -/
def decodeResponse (resp : String) : Except PyExn JVal :=
  match jsonLoads resp with
  | none => .error .valueError
  | some r =>
      match r with
      | .jstr s => if strStartsWith s ":error" then .error .ptoolsError else .ok r
      | _ => .ok r

/-- c9Chunks is the example response stream of the framing claim, the
bytes L0000000013 followed by the twelve payload bytes of the JSON text
with the key ok and the value true, deliberately split into three chunks
so that both the length field and the payload arrive in partial reads. -/
def c9Chunks : ByteStream :=
  [("L00000").data, ("00013\x7b\"ok\"").data, (": true\x7d").data]

/-- c9Payload is the payload text of the example: twelve bytes of JSON,
one fewer than the advertised length of thirteen, so the stream closes
before the length is reached. -/
def c9Payload : List Char :=
  ("\x7b\"ok\": true\x7d").data

/-- recvFixedLengthAux_flatten: the receive loop returns the accumulator
followed by the first remaining bytes of the total pending content,
whatever chunking the network imposes (every delivered chunk is non-empty;
an empty read only means the stream closed).  When the content is shorter
than requested this is everything that arrived, matching the give-up
branch of the source loop. -/
theorem recvFixedLengthAux_flatten (fuel : Nat) :
    ∀ (st : List (List Char)) (remaining : Nat) (acc : List Char),
      remaining ≤ fuel → (∀ c ∈ st, c ≠ []) →
      (recvFixedLengthAux fuel st remaining acc).1 = acc ++ st.flatten.take remaining := by
  induction fuel with
  | zero =>
      intro st remaining acc hle _
      have h0 : remaining = 0 := Nat.le_zero.mp hle
      subst h0
      simp [recvFixedLengthAux]
  | succ fuel ih =>
      intro st remaining acc hle hchunks
      by_cases h0 : remaining = 0
      · subst h0; simp [recvFixedLengthAux]
      · cases st with
        | nil =>
            simp [recvFixedLengthAux, recvStream, h0]
        | cons c rest =>
            have hc : c ≠ [] := hchunks c (List.mem_cons_self c rest)
            have hcpos : 0 < c.length := List.length_pos.mpr hc
            have hrpos : 0 < remaining := Nat.pos_of_ne_zero h0
            by_cases hcl : c.length ≤ min remaining 4096
            · have hpe : c.isEmpty = false := by
                cases c with
                | nil => exact absurd rfl hc
                | cons _ _ => rfl
              have hcr : c.length ≤ remaining := le_trans hcl (Nat.min_le_left _ _)
              have hrec := ih rest (remaining - c.length) (acc ++ c) (by omega)
                (fun x hx => hchunks x (List.mem_cons_of_mem _ hx))
              simp only [recvFixedLengthAux, recvStream, if_neg h0, if_pos hcl, hpe,
                Bool.false_eq_true, if_false]
              rw [hrec, List.flatten_cons, List.take_append_eq_append_take,
                List.take_of_length_le hcr, List.append_assoc]
            · have hlt : min remaining 4096 < c.length := Nat.lt_of_not_le hcl
              have hn1 : 1 ≤ min remaining 4096 := by omega
              have hlen : (c.take (min remaining 4096)).length = min remaining 4096 := by
                rw [List.length_take]; omega
              have hpe : (c.take (min remaining 4096)).isEmpty = false := by
                rcases hq : (c.take (min remaining 4096)).isEmpty with _ | _
                · rfl
                · exfalso
                  have := List.isEmpty_iff.mp hq
                  rw [this] at hlen
                  simp at hlen
                  omega
              have hdrop : c.drop (min remaining 4096) ≠ [] := by
                intro hcon
                have := congrArg List.length hcon
                simp [List.length_drop] at this
                omega
              have hrec := ih (c.drop (min remaining 4096) :: rest)
                (remaining - (c.take (min remaining 4096)).length)
                (acc ++ c.take (min remaining 4096)) (by omega)
                (by
                  intro x hx
                  rcases List.mem_cons.mp hx with h | h
                  · subst h; exact hdrop
                  · exact hchunks x (List.mem_cons_of_mem _ h))
              simp only [recvFixedLengthAux, recvStream, if_neg h0, if_neg hcl, hpe,
                Bool.false_eq_true, if_false]
              have htl : (List.take (min remaining 4096) c).length ≤ remaining := by
                rw [hlen]; omega
              rw [hrec, hlen, List.flatten_cons, List.flatten_cons]
              conv_rhs => rw [← List.take_append_drop (min remaining 4096) c, List.append_assoc,
                List.take_append_eq_append_take]
              rw [List.take_of_length_le htl, hlen, List.append_assoc]

/-- recvFixedLength_flatten: receiving n bytes from a stream of non-empty
pending chunks yields exactly the first n bytes of the pending content;
when fewer than n bytes are pending it yields all of them (the short-read
case: the stream closed first). -/
theorem recvFixedLength_flatten (st : List (List Char)) (n : Nat)
    (h : ∀ c ∈ st, c ≠ []) :
    (recvFixedLength st n).1 = st.flatten.take n := by
  have hx := recvFixedLengthAux_flatten n st n [] (le_refl n) h
  simpa [recvFixedLength] using hx

/-- Claim C1 (code bug).  The claim states that the encoder maps True to
the atom t and False to the atom nil, with the boolean case taking
precedence over the numeric case.  In the code the numeric isinstance test
comes first and bool is a subclass of int, so both booleans are encoded by
str(): True becomes the string True and False the string False; the
branches that return t and nil (whose presence shows the intent) are dead
for genuine booleans.  This theorem evaluates the embedded encoder at the
failing inputs. -/
theorem c1_boolean_numeric_precedence_bug :
    convertArgToLisp (.VBool true) false = .str "True" ∧
    convertArgToLisp (.VBool false) false = .str "False" ∧
    convertArgToLisp (.VBool true) false ≠ .str "t" ∧
    convertArgToLisp (.VBool false) false ≠ .str "nil" :=
  ⟨rfl, rfl, by decide, by decide⟩

/-- Claim C2 (code bug).  The claim states that a Symbol-tagged value with
name n encodes to n with a quote prefix outside a quoted context and to
the bare n inside one.  The encoder has no branch for Symbol instances, so
it falls through and returns None in both contexts, and a call that passes
a Symbol positionally (as PFrame.get_frame_slot_value does) makes
prepareFnCall raise TypeError on the join — contradicting the Symbol class
docstring, which promises that such arguments are interpreted as symbols
during the translation. -/
theorem c2_symbol_encoding_bug :
    convertArgToLisp (.VSymbol "common-name") false = .noneVal ∧
    convertArgToLisp (.VSymbol "common-name") true = .noneVal ∧
    prepareFnCall "get-frame-slot-value" [.VStr "|TRP|", .VSymbol "common-name"] [] = none :=
  ⟨rfl, rfl, rfl⟩

/-- Claim C3, counterexample.  Encoding an arbitrary host object does NOT
raise an EncodingError naming the value: it silently returns the null
result (and a call carrying such a value positionally dies later with a
plain TypeError inside prepareFnCall, not an EncodingError). -/
theorem c3_counterexample :
    convertArgToLisp (.VObj "object") false = .noneVal ∧
    prepareFnCall "f" [.VObj "object"] [] = none :=
  ⟨rfl, rfl⟩

/-- Claim C3 as amended.  The encoder is partial, not fail-fast: every
host value outside the handled set (strings, numbers and booleans, None,
PFrames, lists) — arbitrary objects, dicts, and Symbol instances alike —
falls through every branch and the encoder silently returns the host null
result; no EncodingError type exists anywhere in the code. -/
theorem c3_unsupported_silently_none :
    ∀ (tag name : String) (entries : List (String × PyVal)) (inquote : Bool),
      convertArgToLisp (.VObj tag) inquote = .noneVal ∧
      convertArgToLisp (.VSymbol name) inquote = .noneVal ∧
      convertArgToLisp (.VDict entries) inquote = .noneVal :=
  fun _ _ _ _ => ⟨rfl, rfl, rfl⟩

/-- Claim C4, counterexample.  A plain text string is NOT emitted
double-quote-delimited: encoding abc outside a quoted context yields abc
with a quote prefix, not the double-quoted form. -/
theorem c4_counterexample :
    convertArgToLisp (.VStr "abc") false = .str "\x27abc" ∧
    convertArgToLisp (.VStr "abc") false ≠ .str "\"abc\"" :=
  ⟨rfl, by decide⟩

/-- Claim C4 as amended.  String encoding has exactly two cases, neither
of which looks at embedded spaces or at vertical-bar delimiters: a string
beginning with a colon is emitted as-is with no quote prefix ever, and
every other string is emitted as-is with a quote prefix unless already in
a quoted context; no string is ever double-quote-delimited. -/
theorem c4_string_encoding_amended (s : String) :
    (strStartsWith s ":" = true →
      ∀ inquote, convertArgToLisp (.VStr s) inquote = .str s) ∧
    (strStartsWith s ":" = false →
      convertArgToLisp (.VStr s) false = .str ("\x27" ++ s) ∧
      convertArgToLisp (.VStr s) true = .str s) := by
  constructor
  · intro h inquote
    show EncOut.str ((if inquote || strStartsWith s ":" then "" else "\x27") ++ s) = .str s
    rw [h]
    cases inquote <;> rfl
  · intro h
    constructor
    · show EncOut.str ((if false || strStartsWith s ":" then "" else "\x27") ++ s) =
        .str ("\x27" ++ s)
      rw [h]
      rfl
    · show EncOut.str ((if true || strStartsWith s ":" then "" else "\x27") ++ s) = .str s
      rfl

/-- Witness for c4_string_encoding_amended at the concrete strings :kw
(keyword case) and abc (plain case). -/
theorem c4_string_encoding_amended_witness :
    convertArgToLisp (.VStr ":kw") false = .str ":kw" ∧
    convertArgToLisp (.VStr "abc") false = .str ("\x27" ++ "abc") :=
  ⟨(c4_string_encoding_amended ":kw").1 (by rfl) false,
   ((c4_string_encoding_amended "abc").2 (by rfl)).1⟩

/-- Claim C5, counterexample.  buildCall on f with no positional arguments
and the keyword arguments a = null, b = 5 does NOT produce the exact
string (f :b 5): the empty positional segment still contributes its
separating space, leaving two consecutive spaces after the function
name. -/
theorem c5_counterexample :
    prepareFnCall "f" [] [("a", .VNone), ("b", .VInt 5)] ≠ some "(f :b 5)" := by
  decide

/-- Claim C5 as amended.  The call produces exactly (f  :b 5) — with the
doubled space of the empty positional segment: the a entry, whose value is
host-null, is omitted entirely and no :a token appears anywhere.  A
keyword entry whose value is False is NOT dropped by the null filter, but
it serializes through the numeric branch as the string False, not as nil
(the boolean defect of claim C1). -/
theorem c5_keyword_call_amended :
    prepareFnCall "f" [] [("a", .VNone), ("b", .VInt 5)] = some "(f  :b 5)" ∧
    prepareFnCall "f" [] [("b", .VBool false)] = some "(f  :b False)" :=
  ⟨rfl, rfl⟩

/-- Claim C6, counterexample.  On a freshly constructed, not fully fetched
PFrame, the first getField for a locally absent field does NOT trigger a
full-record fetch and does NOT return null: the per-slot fetch path passes
Symbol(slot) to the encoder, which cannot encode it, so a TypeError is
raised before any query is sent (zero round trips, state unchanged). -/
theorem c6_counterexample :
    pframeGetattr nullOracle "meta" trpFrame "left" = (.error .typeError, trpFrame, []) :=
  rfl

/-- Claim C6 as amended.  For a field absent from the local record (under
both the raw and the normalized name): on a fully fetched Proxy, getField
returns null with no network interaction and no state change; on a not yet
fully fetched Proxy, getField attempts a per-slot fetch with
get-frame-slot-value — retrieving only the requested field, never the full
record, and never marking the Proxy fully fetched — and that path raises
TypeError before any round trip, because its Symbol argument is
unsupported by the value encoder. -/
theorem c6_lazy_fetch_amended (oracle : Oracle) (orgid : String) (fr : FrameState)
    (attr : String)
    (h1 : frameDictGet fr attr = none)
    (h2 : frameDictGet fr (convertLispIdtoPythonId attr) = none) :
    (fr.gotframe = true →
      pframeGetattr oracle orgid fr attr = (.ok none, fr, [])) ∧
    (fr.gotframe = false →
      pframeGetattr oracle orgid fr attr = (.error .typeError, fr, [])) := by
  constructor
  · intro hg
    simp only [pframeGetattr, h1, h2, hg, if_true]
  · intro hg
    simp only [pframeGetattr, h1, h2, hg]
    rfl

/-- Witness for c6_lazy_fetch_amended at a concrete fetched frame and a
concrete absent field. -/
theorem c6_lazy_fetch_amended_witness :
    pframeGetattr nullOracle "meta" trpFetchedFrame "left" =
      (.ok none, trpFetchedFrame, []) :=
  (c6_lazy_fetch_amended nullOracle "meta" trpFetchedFrame "left" (by rfl) (by rfl)).1
    (by rfl)

/-- Claim C7, counterexample.  Resolving the class attribute Reactions on
a fresh session costs THREE round trips (class-name-p, get-frame-object,
get-class), not the single round trip pair (class check plus class fetch)
that the claim asserts; the second resolution adds none. -/
theorem c7_counterexample :
    reactionsSt1.trace.length = 3 ∧
    ¬ reactionsSt1.trace.length = 2 ∧
    pgdbGetattr reactionsOracle reactionsSt1 "Reactions" = .ok (.frameAddr 0, reactionsSt1) :=
  ⟨rfl, by decide, rfl⟩

/-- Claim C7 as amended.  Within one session, a normalized identifier that
is already in the _frames cache resolves to the cached PFrame address with
no network interaction and no state change whatsoever — reference
stability.  Concretely: the first resolution of Reactions on a fresh
session returns the PFrame at heap address 0 after three round trips
(class-name check, class frame fetch, instance-list fetch), registers it
in the cache under the normalized name, and the second resolution returns
the identical address with the session state unchanged. -/
theorem c7_cache_stability_amended :
    (∀ (oracle : Oracle) (st : PgdbState) (attr : String) (a : Nat),
        alistLookup st.dict (convertLispIdtoPythonId attr) = none →
        alistLookup st.frames (convertLispIdtoPythonId attr) = some a →
        pgdbGetattr oracle st attr = .ok (.frameAddr a, st)) ∧
    reactionsRun1 = .ok (.frameAddr 0, reactionsSt1) ∧
    alistLookup reactionsSt1.frames "reactions" = some 0 ∧
    reactionsSt1.trace.length = 3 ∧
    pgdbGetattr reactionsOracle reactionsSt1 "Reactions" = .ok (.frameAddr 0, reactionsSt1) := by
  refine ⟨?_, rfl, rfl, rfl, rfl⟩
  intro oracle st attr a h1 h2
  simp only [pgdbGetattr, h1, h2]

/-- Witness for the general cache-stability part of
c7_cache_stability_amended, applied to the concrete post-resolution
session. -/
theorem c7_cache_stability_amended_witness :
    pgdbGetattr reactionsOracle reactionsSt1 "Reactions" = .ok (.frameAddr 0, reactionsSt1) :=
  c7_cache_stability_amended.1 reactionsOracle reactionsSt1 "Reactions" 0 (by rfl) (by rfl)

/-- Claim C8 (code bug).  The claim states that two Proxies are equal iff
their owning sessions have equal identifier strings and their canonical
frame identifiers are equal.  Comparing two PFrames evaluates
self.pgdb == frame.pgdb, which calls PGDB.__eq__ — whose body tests the
undefined name o instead of its parameter other — so EVERY PFrame-PFrame
(and PGDB-PGDB) comparison raises NameError instead of returning the
structural verdict, even for two views of the same session and the same
canonical identifier. -/
theorem c8_structural_equality_bug :
    pframeEq { frameid := "|TRP|", orgid := "meta" }
      (.frameArg { frameid := "|TRP|", orgid := "meta" }) = .error .nameError ∧
    pgdbEq "meta" "meta" = .error .nameError :=
  ⟨rfl, rfl⟩

/-- Claim C9.  The length-prefixed framing: after the tag L the receiver
reads ten bytes as an ASCII decimal length and then reads exactly that
many payload bytes, looping over however the network chunks them, and if
the stream closes first it returns the bytes accumulated so far (the
general conjunct: the receive loop returns the first n bytes of the
pending content, whole content when shorter).  Concretely, the example
stream carrying L0000000013 and the twelve payload bytes of the JSON map
with key ok and value true — delivered in three chunks, closing one byte
short of the advertised length — yields exactly the payload, which the
transport decoding turns into the map with ok mapped to true. -/
theorem c9_length_prefixed_framing :
    (∀ (chunks : List (List Char)) (n : Nat), (∀ c ∈ chunks, c ≠ []) →
        (recvFixedLength chunks n).1 = chunks.flatten.take n) ∧
    recvAll c9Chunks = some (c9Payload, []) ∧
    decodeResponse (String.mk c9Payload) = .ok (.jobj [("ok", .jbool true)]) :=
  ⟨fun chunks n h => recvFixedLength_flatten chunks n h, rfl, rfl⟩

/-- Witness for the general framing conjunct of c9_length_prefixed_framing
on a concrete two-chunk stream. -/
theorem c9_length_prefixed_framing_witness :
    (recvFixedLength [['a', 'b'], ['c']] 2).1 = [['a', 'b'], ['c']].flatten.take 2 :=
  c9_length_prefixed_framing.1 [['a', 'b'], ['c']] 2 (by decide)

/-- Claim C10.  Attribute assignment on a PGDB session stores
underscore-prefixed attributes directly in __dict__; for every other name
both attribute assignment and item assignment raise an exception before
anything is stored (the guard line evaluates the undefined name
isinstances, so the exception is a NameError), leaving the session
unchanged — so only underscore-prefixed attributes can ever be stored by
assignment. -/
theorem c10_setattr_guard (st : PgdbState) (attr : String) (val : PyVal) :
    (strStartsWith attr "_" = false →
      pgdbSetattr st attr val = .error .nameError ∧
      pgdbSetitem st attr val = .error .nameError) ∧
    (strStartsWith attr "_" = true →
      pgdbSetattr st attr val = .ok { st with dict := alistUpdate st.dict attr (.pyD val) }) := by
  constructor
  · intro h
    exact ⟨by simp [pgdbSetattr, h], rfl⟩
  · intro h
    simp [pgdbSetattr, h]

/-- Witness for c10_setattr_guard at a concrete session and the
non-underscore attribute reactions. -/
theorem c10_setattr_guard_witness :
    pgdbSetattr (pgdbInit "meta") "reactions" (.VInt 1) = .error .nameError ∧
    pgdbSetitem (pgdbInit "meta") "reactions" (.VInt 1) = .error .nameError :=
  (c10_setattr_guard (pgdbInit "meta") "reactions" (.VInt 1)).1 (by rfl)
